import Mathlib

/-!
Verification of the device-value synchronization engine of the
`homebridge-zwave` plugin (`src/lib/ZWave.js` and
`src/lib/AccessoryManager.js`) against its natural-language
specification.

The JavaScript code is shallowly embedded: JS primitive values become
`JsVal`, JS `Map`s become insertion-ordered association lists with
`Map.set`/`Map.get` semantics, thrown `TypeError`s become `Except.error`,
and the side effects of the binding-factory closures (value-store
lookups, outbound `setValue` commands, characteristic `updateValue`
pushes) are reified as lists of `Effect`s in the order the code
performs them.
-/

namespace HomebridgeZwave

/-- Decidable equality for `Except`, so that concrete runs of the
fallible operations can be checked by `decide`. -/
instance {ε α : Type} [DecidableEq ε] [DecidableEq α] : DecidableEq (Except ε α)
  | .error a, .error b =>
    if h : a = b then .isTrue (by rw [h]) else .isFalse (fun hh => h (Except.error.inj hh))
  | .error _, .ok _ => .isFalse (fun hh => Except.noConfusion hh)
  | .ok _, .error _ => .isFalse (fun hh => Except.noConfusion hh)
  | .ok a, .ok b =>
    if h : a = b then .isTrue (by rw [h]) else .isFalse (fun hh => h (Except.ok.inj hh))

/-- A JavaScript primitive value as it occurs in this code base:
booleans, (integral) numbers, strings, and `NaN` (which `Number(...)`
can produce). -/
inductive JsVal where
  | bool : Bool → JsVal
  | num : Int → JsVal
  | str : String → JsVal
  | nan : JsVal
deriving DecidableEq, Repr

/-- JS `Number(v)` viewed as a partial map to an integer; `none` is `NaN`. -/
def jsToNumber : JsVal → Option Int
  | .bool b => some (if b then 1 else 0)
  | .num n => some n
  | .str s => s.toInt?
  | .nan => none

/-- JS `Number(v)` as a value (`NaN` when the conversion fails). -/
def jsNumber (v : JsVal) : JsVal :=
  match jsToNumber v with
  | some n => .num n
  | none => .nan

/-- JS `Boolean(v)` / truthiness of the values used in this code base. -/
def jsTruthy : JsVal → Bool
  | .bool b => b
  | .num n => n != 0
  | .str s => s != ""
  | .nan => false

/-- JS `a < b` on values (comparisons involving `NaN` are false). -/
def jsLt (a b : JsVal) : Bool :=
  match jsToNumber a, jsToNumber b with
  | some x, some y => decide (x < y)
  | _, _ => false

/-- Whether a list starts with the given pattern. -/
def listStartsWith {α : Type} [BEq α] : List α → List α → Bool
  | _, [] => true
  | [], _ :: _ => false
  | a :: l, b :: m => a == b && listStartsWith l m

/-- Whether a list contains the given pattern as a contiguous
subsequence. -/
def listContainsSeq {α : Type} [BEq α] : List α → List α → Bool
  | l, pat =>
    if listStartsWith l pat then true
    else
      match l with
      | [] => false
      | _ :: rest => listContainsSeq rest pat

/-- JS `String.prototype.split` with a one-character separator. -/
def jsSplit (sep : Char) : List Char → List (List Char)
  | [] => [[]]
  | c :: rest =>
      let r := jsSplit sep rest
      if c == sep then [] :: r
      else
        match r with
        | [] => [[c]]
        | h :: t => (c :: h) :: t

/-- JS `String.prototype.includes` on a string value (`false` on the
other value shapes, which the filters in this code never receive). -/
def jsIncludes (v : JsVal) (sub : String) : Bool :=
  match v with
  | .str s => listContainsSeq s.data sub.data
  | _ => false

/-- JS `Boolean` used as a value filter. -/
def jsBooleanFilter (v : JsVal) : JsVal := .bool (jsTruthy v)

/-- JS `Number` used as a value filter. -/
def jsNumberFilter (v : JsVal) : JsVal := jsNumber v

/-- One entry of a node's `values` map (an OpenZWave value object):
only the fields this code reads. The `instance` field of the source is
named `inst` (`instance` is a Lean keyword). -/
structure NodeValue where
  value_id : String
  class_id : Nat
  inst : Nat
  index : Nat
  label : String
  value : JsVal
deriving DecidableEq, Repr

/-- A node record of the store (`ZWave.js` `_ozwNodeAdded`): its id and
its insertion-ordered `values` map, keyed by `value_id`. -/
structure Node where
  id : Nat
  values : List (String × NodeValue)
deriving DecidableEq, Repr

/-- The `ZWave` class state: the `_nodes` map and the `_ready` flag. -/
structure ZWaveState where
  nodes : List (Nat × Node)
  ready : Bool
deriving DecidableEq, Repr

/-- JS `Map.prototype.get`: first entry with the given key. -/
def listMapGet {α β : Type} [BEq α] (m : List (α × β)) (k : α) : Option β :=
  (m.find? (fun p => p.1 == k)).map Prod.snd

/-- JS `Map.prototype.set`: replace the entry in place when the key is
present (keeping its position), append otherwise. -/
def listMapSet {α β : Type} [BEq α] (m : List (α × β)) (k : α) (v : β) : List (α × β) :=
  if m.any (fun p => p.1 == k) then
    m.map (fun p => if p.1 == k then (k, v) else p)
  else
    m ++ [(k, v)]

/-- A lookup criteria object as passed to `findNodeValue`: any of the
`class_id`, `instance`, `index` keys may be present. -/
structure Criteria where
  class_id : Option Nat
  inst : Option Nat
  index : Option Nat
deriving DecidableEq, Repr

/-- Whether a value matches every key present in a criteria object
(the `Object.entries(criteria).map(([k, v]) => value[k] === v)` check). -/
def matchesCriteria (v : NodeValue) (c : Criteria) : Bool :=
  (match c.class_id with | none => true | some x => v.class_id == x) &&
  (match c.inst with | none => true | some x => v.inst == x) &&
  (match c.index with | none => true | some x => v.index == x)

/-- Models `Object.assign({ instance: 1 }, criteria)`: default the instance
key to 1 when absent. -/
def defaultCriteria (c : Criteria) : Criteria :=
  ⟨c.class_id, some (c.inst.getD 1), c.index⟩

/-- Embeds `ZWave#findNodeValue(nodeId, criteria)` (src/lib/ZWave.js:77-89).
Defaults `instance` to 1, dereferences `node.values` (a `TypeError` is
thrown — modelled as `Except.error` — when the node is absent), and
returns the first matching value, `undefined` (`none`) when nothing
matches. -/
def findNodeValue (st : ZWaveState) (nodeId : Nat) (criteria : Criteria) :
    Except String (Option NodeValue) :=
  match listMapGet st.nodes nodeId with
  | none => .error "TypeError: Cannot read property of undefined"
  | some node =>
      .ok ((node.values.map Prod.snd).find?
        (fun v => matchesCriteria v (defaultCriteria criteria)))

/-- The defaulting `valueInstance = valueInstance || 1` in
`generateNodeValueId`: `none` models an omitted argument, and because
0 is falsy in JS, an explicit 0 is also sent to 1. -/
def normInstance (valueInstance : Option Nat) : Nat :=
  match valueInstance with
  | none => 1
  | some i => if i == 0 then 1 else i

/-- The defaulting `valueIndex = valueIndex || 0` in
`generateNodeValueId` (on numbers, `|| 0` only replaces 0 by 0, so
this is the identity on present arguments). -/
def normIndex (valueIndex : Option Nat) : Nat :=
  match valueIndex with
  | none => 0
  | some x => x

/-- Embeds `ZWave#generateNodeValueId` (src/lib/ZWave.js:149-154): the
template literal over the defaulted components. -/
def generateNodeValueId (nodeId commandClass : Nat)
    (valueInstance valueIndex : Option Nat) : String :=
  Nat.repr nodeId ++ "-" ++ Nat.repr commandClass ++ "-" ++
    Nat.repr (normInstance valueInstance) ++ "-" ++ Nat.repr (normIndex valueIndex)

/-- The outbound `this._ozw.setValue(...)` command issued by
`ZWave#updateNodeValueById`; the address components are the raw strings
produced by `id.split('-')` (`none` would model a missing component). -/
structure SetValueCmd where
  nodeId : Option String
  commandClass : Option String
  valueInstance : Option String
  valueIndex : Option String
  newValue : JsVal
deriving DecidableEq, Repr

/-- Embeds `ZWave#updateNodeValueById(id, newValue)` (src/lib/ZWave.js:126-141):
splits the id on `-` and issues one `setValue` command whose address
components are the first four split parts (destructuring a missing
part gives `undefined`, modelled as `none`). -/
def updateNodeValueById (id : String) (newValue : JsVal) : SetValueCmd :=
  let parts := (jsSplit '-' id.data).map List.asString
  ⟨parts.get? 0, parts.get? 1, parts.get? 2, parts.get? 3, newValue⟩

/-- Embeds `ZWave#_ozwNodeAdded(nodeId)` (src/lib/ZWave.js:191-200): stores a
fresh empty node record under `nodeId` — `Map.set` replaces any record
already there; no error path exists. -/
def ozwNodeAdded (st : ZWaveState) (nodeId : Nat) : ZWaveState :=
  ⟨listMapSet st.nodes nodeId ⟨nodeId, []⟩, st.ready⟩

/-- Embeds `ZWave#_ozwScanComplete` (src/lib/ZWave.js:178-184): sets the
`_ready` flag. -/
def ozwScanComplete (st : ZWaveState) : ZWaveState :=
  ⟨st.nodes, true⟩

/-- The data delivered by the driver's `value changed` event that this
handler reads: the value's id and its new raw value. -/
structure IncomingValue where
  value_id : String
  value : JsVal
deriving DecidableEq, Repr

/-- Embeds `ZWave#_ozwNodeValueChanged` (src/lib/ZWave.js:251-264): looks up
the stored value (dereferencing `undefined` throws — `Except.error`),
records the previous raw value (used only in the log line), overwrites
the stored raw value, and emits one internal `node.value.updated`
event carrying `(value_id, newValue)` — but only when `_ready` is set.
Returns (new state, previous value as logged, emitted events). -/
def ozwNodeValueChanged (st : ZWaveState) (nodeId : Nat) (incoming : IncomingValue) :
    Except String (ZWaveState × JsVal × List (String × JsVal)) :=
  match listMapGet st.nodes nodeId with
  | none => .error "TypeError: Cannot read property of undefined"
  | some node =>
      match listMapGet node.values incoming.value_id with
      | none => .error "TypeError: Cannot set property of undefined"
      | some existingNodeValue =>
          let previousNodeValueValue := existingNodeValue.value
          let updated : NodeValue := { existingNodeValue with value := incoming.value }
          let node' : Node := { node with values := listMapSet node.values incoming.value_id updated }
          let st' : ZWaveState := ⟨listMapSet st.nodes nodeId node', st.ready⟩
          let events := if st.ready then [(existingNodeValue.value_id, incoming.value)] else []
          .ok (st', previousNodeValueValue, events)

/-- Embeds `ZWave#onNodeValueChanged(nodeValueId, callback)`
(src/lib/ZWave.js:112-118): the callback subscribed at `nodeValueId`
receives, for each emitted `node.value.updated` event whose id matches,
exactly one argument — the new value. This computes the list of
arguments the callback is invoked with for a list of emitted events. -/
def deliveredValues (nodeValueId : String) (events : List (String × JsVal)) : List JsVal :=
  (events.filter (fun e => e.1 == nodeValueId)).map Prod.snd

/-- The raw value currently stored for a value id of a node. -/
def getStoredValue (st : ZWaveState) (nodeId : Nat) (id : String) : Option JsVal :=
  (listMapGet st.nodes nodeId).bind (fun node => (listMapGet node.values id).map NodeValue.value)

/-! ## AccessoryManager (src/lib/AccessoryManager.js) -/

/-- Constant `READY_STATE_UNREADY` (src/lib/AccessoryManager.js:28). -/
def READY_STATE_UNREADY : Nat := 0

/-- Constant `READY_STATE_READY` (src/lib/AccessoryManager.js:29). -/
def READY_STATE_READY : Nat := 1

/-- One observable side effect of a binding-factory closure, in the
order the code performs them: a `findNodeValue` call against the value
store, an outbound `setValue` command to the driver, or a
`characteristic.updateValue` push (tagged with the characteristic's
name). -/
inductive Effect where
  | storeLookup : Nat → Criteria → Effect
  | setValue : SetValueCmd → Effect
  | charPush : String → JsVal → Effect
deriving DecidableEq, Repr

/-- The outcome a getter hands to its `done` callback:
`done(err)` or `done(null, value)`. -/
inductive GetResult where
  | err : String → GetResult
  | ok : JsVal → GetResult
deriving DecidableEq, Repr

/-- The outcome a setter hands to its `done` callback. -/
inductive SetResult where
  | err : String → SetResult
  | ok : SetResult
deriving DecidableEq, Repr

/-- Embeds `AccessoryManager#_makeZwaveNodeValueResolver` applied
(src/lib/AccessoryManager.js:753-764): calls `findNodeValue` with
`{ class_id: commandClass, index: valueIndex }` and destructures
`.value` — destructuring `undefined` throws (`Except.error`). Returns
the resolved raw value together with the store-lookup effect. -/
def zwaveNodeValueResolver (st : ZWaveState) (zwaveNodeId commandClass valueIndex : Nat) :
    Except String JsVal × List Effect :=
  let criteria : Criteria := ⟨some commandClass, none, some valueIndex⟩
  let res : Except String JsVal :=
    match findNodeValue st zwaveNodeId criteria with
    | .error e => .error e
    | .ok none => .error "TypeError: Cannot destructure property of undefined"
    | .ok (some v) => .ok v.value
  (res, [.storeLookup zwaveNodeId criteria])

/-- A getter produced by
`AccessoryManager#_makeCharacteristicGetterForZwaveNodeValue`
(src/lib/AccessoryManager.js:723-745), invoked: when the accessory's
ready state is `READY_STATE_UNREADY` it calls `done` with a not-ready
error before touching the resolver; otherwise it runs the resolver and
calls `done(null, valueFilter(value))`. The resolver argument is
abstract (it is whatever closure the caller supplied), so its effects
are part of its result. -/
def characteristicGetter (accessoryReadyState : Nat) (displayName : String)
    (zwaveNodeValueResolverFn : Unit → Except String JsVal × List Effect)
    (valueFilter : JsVal → JsVal) : Except String GetResult × List Effect :=
  if accessoryReadyState == READY_STATE_UNREADY then
    (.ok (.err (displayName ++ " is not yet ready")), [])
  else
    match zwaveNodeValueResolverFn () with
    | (.error e, effs) => (.error e, effs)
    | (.ok value, effs) => (.ok (.ok (valueFilter value)), effs)

/-- A setter produced by
`AccessoryManager#_makeCharacteristicSetterForZwaveNodeValue`
(src/lib/AccessoryManager.js:774-803), invoked with `value`: it
computes `newValue = valueFilter(value)` and the encoded node value id,
then — unless the ready state is `READY_STATE_UNREADY`, in which case
it fails with the not-ready error having performed no effect — calls
`updateNodeValueById`, issuing exactly one outbound `setValue` command,
and reports success. -/
def characteristicSetter (accessoryReadyState : Nat) (displayName : String)
    (zwaveNodeId commandClass valueIndex : Nat)
    (valueFilter : JsVal → JsVal) (value : JsVal) : SetResult × List Effect :=
  let newValue := valueFilter value
  let nodeValueId := generateNodeValueId zwaveNodeId commandClass none (some valueIndex)
  if accessoryReadyState == READY_STATE_UNREADY then
    (.err (displayName ++ " is not yet ready"), [])
  else
    (.ok, [.setValue (updateNodeValueById nodeValueId newValue)])

/-- The callback bound by
`AccessoryManager#_updateCharacteristicValueOnZwaveNodeValueUpdated`
(src/lib/AccessoryManager.js:813-834) when its subscription fires:
it unconditionally calls `characteristic.updateValue(valueFilter(value))`
— the characteristic's current value (passed here to expose it to the
statements) is never consulted. -/
def updateCharacteristicValueOnZwaveNodeValueUpdated (characteristicName : String)
    (valueFilter : JsVal → JsVal) (characteristicValue value : JsVal) : List Effect :=
  let _ := characteristicValue
  [.charPush characteristicName (valueFilter value)]

/-- The id `_updateCharacteristicValueOnZwaveNodeValueUpdated`
subscribes at: `generateNodeValueId({nodeId, commandClass, valueIndex})`
with the instance omitted. -/
def bindChangeNotificationId (zwaveNodeId commandClass valueIndex : Nat) : String :=
  generateNodeValueId zwaveNodeId commandClass none (some valueIndex)

/-- Embeds `chargingStateCharacteristicValueFilter`
(src/lib/AccessoryManager.js:386): `value.includes('Battery power') ? 0 : 1`. -/
def chargingStateCharacteristicValueFilter (v : JsVal) : JsVal :=
  if jsIncludes v "Battery power" then .num 0 else .num 1

/-- The derived low-battery boolean as computed inside the
battery-level change handler (src/lib/AccessoryManager.js:454-457):
`(!isCharging && (Number(value) < Number(minBatteryLevel))) ? 1 : 0`. -/
def derivedLowBattery (batteryLevel currentPowerMode minBatteryLevel : JsVal) : JsVal :=
  let isCharging := jsTruthy (chargingStateCharacteristicValueFilter currentPowerMode)
  if !isCharging && jsLt (jsNumber batteryLevel) (jsNumber minBatteryLevel) then
    .num 1
  else
    .num 0

/-- The hand-bound battery-level change callback of
`AccessoryManager#_configureBatteryService`
(src/lib/AccessoryManager.js:436-465): pushes `Number(value)` into the
"Battery Level" characteristic unconditionally, re-resolves the current
power mode and the low-battery threshold from the value store
(destructuring a missing result throws), recomputes the derived
low-battery boolean, and pushes it into "Status Low Battery" only when
it differs from that characteristic's current value. -/
def batteryLevelChangedHandler (st : ZWaveState) (zwaveNodeId : Nat)
    (statusLowBatteryValue value : JsVal) : Except String (List Effect) :=
  let v := jsNumber value
  let powerModeCriteria : Criteria := ⟨some 112, none, some 9⟩
  let minBatteryCriteria : Criteria := ⟨some 112, none, some 39⟩
  match findNodeValue st zwaveNodeId powerModeCriteria with
  | .error e => .error e
  | .ok none => .error "TypeError: Cannot destructure property of undefined"
  | .ok (some currentPowerMode) =>
      match findNodeValue st zwaveNodeId minBatteryCriteria with
      | .error e => .error e
      | .ok none => .error "TypeError: Cannot destructure property of undefined"
      | .ok (some minBatteryLevel) =>
          let lowBattery := derivedLowBattery v currentPowerMode.value minBatteryLevel.value
          .ok ([.charPush "Battery Level" v,
                .storeLookup zwaveNodeId powerModeCriteria,
                .storeLookup zwaveNodeId minBatteryCriteria] ++
               (if statusLowBatteryValue ≠ lowBattery then
                  [.charPush "Status Low Battery" lowBattery]
                else []))

/-- The complete reaction of the battery service's subscriptions
(`AccessoryManager#_configureBatteryService`,
src/lib/AccessoryManager.js:425-473) to one internal
`node.value.updated` event `(eventId, value)`. Two listeners are
registered, in this order: the hand-bound battery-level handler at the
battery-level value id (class 128, index 0), and the generic
change-notification binding for the "Charging State" characteristic at
the power-mode value id (class 112, index 9). Each fires only when the
event id matches its subscription id. Nothing is subscribed at the
low-battery threshold value id. -/
def batteryServiceOnNodeValueUpdated (st : ZWaveState) (zwaveNodeId : Nat)
    (chargingStateValue statusLowBatteryValue : JsVal)
    (eventId : String) (value : JsVal) : Except String (List Effect) :=
  let batteryLevelId := generateNodeValueId zwaveNodeId 128 none (some 0)
  let chargingStateId := bindChangeNotificationId zwaveNodeId 112 9
  match (if eventId == batteryLevelId then
           batteryLevelChangedHandler st zwaveNodeId statusLowBatteryValue value
         else .ok []) with
  | .error e => .error e
  | .ok effs1 =>
      let effs2 :=
        if eventId == chargingStateId then
          updateCharacteristicValueOnZwaveNodeValueUpdated "Charging State"
            chargingStateCharacteristicValueFilter chargingStateValue value
        else []
      .ok (effs1 ++ effs2)

/-! ## Auxiliary definitions and concrete fixtures used by the theorems -/

/-- Reads a digit string back as a number (used only to invert
`Nat.repr` in proofs). -/
def digitsVal (l : List Char) : Nat :=
  l.foldl (fun a c => 10 * a + (c.toNat - 48)) 0

/-- A binary-switch value of node 2 (class 37 "switch-binary",
instance 1, index 0), currently `false`. -/
def outletValue : NodeValue := ⟨"2-37-1-0", 37, 1, 0, "Switch", .bool false⟩

/-- A one-node store holding `outletValue`, after the initial scan. -/
def outletStore : ZWaveState := ⟨[(2, ⟨2, [("2-37-1-0", outletValue)]⟩)], true⟩

/-- The same store before the initial scan has completed. -/
def unreadyOutletStore : ZWaveState := ⟨[(2, ⟨2, [("2-37-1-0", outletValue)]⟩)], false⟩

/-- Battery level 30 of node 5 (class 128, index 0). -/
def batteryLevelValue : NodeValue := ⟨"5-128-1-0", 128, 1, 0, "Battery Level", .num 30⟩

/-- Power mode of node 5 (class 112, index 9), already changed to
"Plugged in". -/
def powerModeValue : NodeValue := ⟨"5-112-1-9", 112, 1, 9, "Current Power Mode", .str "Plugged in"⟩

/-- Low-battery threshold 20 of node 5 (class 112, index 39). -/
def lowBatteryThresholdValue : NodeValue :=
  ⟨"5-112-1-39", 112, 1, 39, "Low Battery", .num 20⟩

/-- The store for the battery scenario: node 5 holds battery level 30,
power mode "Plugged in", threshold 20. -/
def batteryStore : ZWaveState :=
  ⟨[(5, ⟨5, [("5-128-1-0", batteryLevelValue), ("5-112-1-9", powerModeValue),
    ("5-112-1-39", lowBatteryThresholdValue)]⟩)], true⟩

/-- First of two values of node 1 with identical
(class 37, instance 1, index 0) lookup fields. -/
def switchValueA : NodeValue := ⟨"a", 37, 1, 0, "Switch A", .bool false⟩

/-- Second value of node 1 with the same lookup fields. -/
def switchValueB : NodeValue := ⟨"b", 37, 1, 0, "Switch B", .bool true⟩

/-- A store where criteria (class 37, index 0) on node 1 is ambiguous:
two distinct values match. -/
def ambiguousStore : ZWaveState :=
  ⟨[(1, ⟨1, [("a", switchValueA), ("b", switchValueB)]⟩)], true⟩

/-- A store with a non-empty node record for node 1. -/
def nodeOneStore : ZWaveState := ⟨[(1, ⟨1, [("a", switchValueA)]⟩)], false⟩

/-! ### The decimal rendering used by `generateNodeValueId`

`generateNodeValueId` joins the decimal renderings of its four
components with `-`. Decimal digits never contain `-`, so the rendering
of a tuple can be split back apart unambiguously; these lemmas make
that precise. -/

theorem toDigitsCore_append (f : Nat) :
    ∀ (n : Nat) (ds : List Char),
      Nat.toDigitsCore 10 f n ds = Nat.toDigitsCore 10 f n [] ++ ds := by
  induction f with
  | zero => intro n ds; simp [Nat.toDigitsCore]
  | succ f ih =>
    intro n ds
    simp only [Nat.toDigitsCore]
    by_cases h : n / 10 = 0
    · simp [h]
    · simp only [h, if_false]
      rw [ih (n / 10) (Nat.digitChar (n % 10) :: ds),
        ih (n / 10) [Nat.digitChar (n % 10)], List.append_assoc]
      simp

theorem digitChar_isDigit {m : Nat} (h : m < 10) : (Nat.digitChar m).isDigit = true := by
  interval_cases m <;> decide

theorem toDigitsCore_all_digits (f : Nat) :
    ∀ (n : Nat) (ds : List Char), (∀ c ∈ ds, c.isDigit = true) →
      ∀ c ∈ Nat.toDigitsCore 10 f n ds, c.isDigit = true := by
  induction f with
  | zero => intro n ds hds; simpa [Nat.toDigitsCore] using hds
  | succ f ih =>
    intro n ds hds
    have hcons : ∀ c ∈ Nat.digitChar (n % 10) :: ds, c.isDigit = true := by
      intro c hc
      rcases List.mem_cons.mp hc with hc | hc
      · exact hc ▸ digitChar_isDigit (Nat.mod_lt n (by decide))
      · exact hds c hc
    simp only [Nat.toDigitsCore]
    by_cases h : n / 10 = 0
    · simpa [h] using hcons
    · simpa [h] using ih (n / 10) (Nat.digitChar (n % 10) :: ds) hcons

theorem digitsVal_append_singleton (xs : List Char) (c : Char) :
    digitsVal (xs ++ [c]) = 10 * digitsVal xs + (c.toNat - 48) := by
  simp [digitsVal, List.foldl_append]

theorem digitChar_toNat_sub {m : Nat} (h : m < 10) : (Nat.digitChar m).toNat - 48 = m := by
  interval_cases m <;> decide

theorem toDigitsCore_val (f : Nat) :
    ∀ n : Nat, n ≤ f → digitsVal (Nat.toDigitsCore 10 f n []) = n := by
  induction f with
  | zero =>
    intro n hn
    have : n = 0 := Nat.le_zero.mp hn
    simp [this, Nat.toDigitsCore, digitsVal]
  | succ f ih =>
    intro n hn
    simp only [Nat.toDigitsCore]
    by_cases h : n / 10 = 0
    · have hn10 : n < 10 := by omega
      have hone : digitsVal [Nat.digitChar n] = n := by
        simp [digitsVal, digitChar_toNat_sub hn10]
      simp [h, Nat.mod_eq_of_lt hn10, hone]
    · simp only [h, if_false]
      rw [toDigitsCore_append f (n / 10) [Nat.digitChar (n % 10)],
        digitsVal_append_singleton, digitChar_toNat_sub (Nat.mod_lt n (by decide)),
        ih (n / 10) (by omega)]
      omega

theorem repr_digitsVal (n : Nat) : digitsVal (Nat.repr n).data = n := by
  have : (Nat.repr n).data = Nat.toDigitsCore 10 (n + 1) n [] := rfl
  rw [this]
  exact toDigitsCore_val (n + 1) n (Nat.le_succ n)

theorem repr_injective {m n : Nat} (h : Nat.repr m = Nat.repr n) : m = n := by
  have hv : digitsVal (Nat.repr m).data = digitsVal (Nat.repr n).data := by rw [h]
  rwa [repr_digitsVal, repr_digitsVal] at hv

theorem repr_no_dash (n : Nat) : '-' ∉ (Nat.repr n).data := by
  intro hmem
  have hdata : (Nat.repr n).data = Nat.toDigitsCore 10 (n + 1) n [] := rfl
  have hdig := toDigitsCore_all_digits (n + 1) n [] (by simp) '-' (hdata ▸ hmem)
  exact absurd hdig (by decide)

theorem append_dash_cancel :
    ∀ (l₁ l₂ r₁ r₂ : List Char), '-' ∉ l₁ → '-' ∉ l₂ →
      l₁ ++ '-' :: r₁ = l₂ ++ '-' :: r₂ → l₁ = l₂ ∧ r₁ = r₂ := by
  intro l₁
  induction l₁ with
  | nil =>
    intro l₂ r₁ r₂ _ h2 h
    cases l₂ with
    | nil => simpa using h
    | cons b t =>
      exfalso
      have hb : b = '-' := (List.cons.injEq _ _ _ _ ▸ h.symm).1
      exact h2 (hb ▸ List.mem_cons_self b t)
  | cons a s ih =>
    intro l₂ r₁ r₂ h1 h2 h
    cases l₂ with
    | nil =>
      exfalso
      have ha : a = '-' := (List.cons.injEq _ _ _ _ ▸ h).1
      exact h1 (ha ▸ List.mem_cons_self a s)
    | cons b t =>
      have hab : a = b := (List.cons.injEq _ _ _ _ ▸ h).1
      have htail : s ++ '-' :: r₁ = t ++ '-' :: r₂ := (List.cons.injEq _ _ _ _ ▸ h).2
      have hs : '-' ∉ s := fun hm => h1 (List.mem_cons_of_mem a hm)
      have ht : '-' ∉ t := fun hm => h2 (List.mem_cons_of_mem b hm)
      obtain ⟨hst, hr⟩ := ih t r₁ r₂ hs ht htail
      exact ⟨by rw [hab, hst], hr⟩

theorem generateNodeValueId_data (n c i x : Nat) :
    (Nat.repr n ++ "-" ++ Nat.repr c ++ "-" ++ Nat.repr i ++ "-" ++ Nat.repr x).data =
      (Nat.repr n).data ++ '-' ::
        ((Nat.repr c).data ++ '-' :: ((Nat.repr i).data ++ '-' :: (Nat.repr x).data)) := by
  simp [String.data_append]

theorem dashJoin_injective {n₁ c₁ i₁ x₁ n₂ c₂ i₂ x₂ : Nat}
    (h : Nat.repr n₁ ++ "-" ++ Nat.repr c₁ ++ "-" ++ Nat.repr i₁ ++ "-" ++ Nat.repr x₁ =
      Nat.repr n₂ ++ "-" ++ Nat.repr c₂ ++ "-" ++ Nat.repr i₂ ++ "-" ++ Nat.repr x₂) :
    n₁ = n₂ ∧ c₁ = c₂ ∧ i₁ = i₂ ∧ x₁ = x₂ := by
  have hd : (Nat.repr n₁).data ++ '-' ::
      ((Nat.repr c₁).data ++ '-' :: ((Nat.repr i₁).data ++ '-' :: (Nat.repr x₁).data)) =
      (Nat.repr n₂).data ++ '-' ::
      ((Nat.repr c₂).data ++ '-' :: ((Nat.repr i₂).data ++ '-' :: (Nat.repr x₂).data)) := by
    rw [← generateNodeValueId_data, ← generateNodeValueId_data, h]
  obtain ⟨hn, hd1⟩ := append_dash_cancel _ _ _ _ (repr_no_dash n₁) (repr_no_dash n₂) hd
  obtain ⟨hc, hd2⟩ := append_dash_cancel _ _ _ _ (repr_no_dash c₁) (repr_no_dash c₂) hd1
  obtain ⟨hi, hx⟩ := append_dash_cancel _ _ _ _ (repr_no_dash i₁) (repr_no_dash i₂) hd2
  refine ⟨repr_injective (String.ext hn), repr_injective (String.ext hc),
    repr_injective (String.ext hi), repr_injective (String.ext ?_)⟩
  exact hx

theorem generateNodeValueId_inj {n₁ c₁ n₂ c₂ : Nat} {i₁ x₁ i₂ x₂ : Option Nat}
    (h : generateNodeValueId n₁ c₁ i₁ x₁ = generateNodeValueId n₂ c₂ i₂ x₂) :
    n₁ = n₂ ∧ c₁ = c₂ ∧ normInstance i₁ = normInstance i₂ ∧ normIndex x₁ = normIndex x₂ :=
  dashJoin_injective h

theorem generateNodeValueId_ne_of_commandClass {n₁ c₁ n₂ c₂ : Nat} {i₁ x₁ i₂ x₂ : Option Nat}
    (hc : c₁ ≠ c₂) :
    (generateNodeValueId n₁ c₁ i₁ x₁ == generateNodeValueId n₂ c₂ i₂ x₂) = false := by
  rw [Bool.eq_false_iff]
  intro hbeq
  exact hc (generateNodeValueId_inj (eq_of_beq hbeq)).2.1

theorem generateNodeValueId_ne_of_index {n₁ c₁ n₂ c₂ : Nat} {i₁ x₁ i₂ x₂ : Option Nat}
    (hx : normIndex x₁ ≠ normIndex x₂) :
    (generateNodeValueId n₁ c₁ i₁ x₁ == generateNodeValueId n₂ c₂ i₂ x₂) = false := by
  rw [Bool.eq_false_iff]
  intro hbeq
  exact hx (generateNodeValueId_inj (eq_of_beq hbeq)).2.2.2

/-! ### JS `Map.get`/`Map.set` interaction -/

theorem listMapGet_cons {α β : Type} [BEq α] (x : α × β) (l : List (α × β)) (k : α) :
    listMapGet (x :: l) k = if x.1 == k then some x.2 else listMapGet l k := by
  by_cases h : (x.1 == k) = true
  · simp [listMapGet, List.find?_cons_of_pos _ h, h]
  · simp [listMapGet, List.find?_cons_of_neg _ (by simpa using h), h]

theorem listMapGet_map_replace_self {α β : Type} [BEq α] [LawfulBEq α] (k : α) (v : β) :
    ∀ m : List (α × β), m.any (fun p => p.1 == k) = true →
      listMapGet (m.map (fun p => if p.1 == k then (k, v) else p)) k = some v := by
  intro m
  induction m with
  | nil => intro h; simp at h
  | cons a t ih =>
    intro h
    by_cases ha : (a.1 == k) = true
    · simp [ha, listMapGet_cons]
    · have ht : t.any (fun p => p.1 == k) = true := by
        rcases List.any_eq_true.mp h with ⟨p, hp, hpk⟩
        rcases List.mem_cons.mp hp with rfl | hpt
        · exact absurd hpk ha
        · exact List.any_eq_true.mpr ⟨p, hpt, hpk⟩
      simpa [ha, listMapGet_cons] using ih ht

theorem listMapGet_set_self {α β : Type} [BEq α] [LawfulBEq α]
    (m : List (α × β)) (k : α) (v : β) : listMapGet (listMapSet m k v) k = some v := by
  unfold listMapSet
  by_cases h : m.any (fun p => p.1 == k) = true
  · rw [if_pos h]
    exact listMapGet_map_replace_self k v m h
  · rw [if_neg h]
    have hnone : m.find? (fun p => p.1 == k) = none := by
      rw [List.find?_eq_none]
      intro x hx hpx
      exact h (List.any_eq_true.mpr ⟨x, hx, hpx⟩)
    simp [listMapGet, hnone]

theorem listMapGet_map_replace_ne {α β : Type} [BEq α] [LawfulBEq α] (k k' : α) (v : β)
    (hne : ¬ k = k') : ∀ m : List (α × β),
      listMapGet (m.map (fun p => if p.1 == k then (k, v) else p)) k' = listMapGet m k' := by
  intro m
  induction m with
  | nil => rfl
  | cons a t ih =>
    by_cases ha : (a.1 == k) = true
    · have ha' : a.1 = k := eq_of_beq ha
      have h1 : (k == k') = false := by
        rw [Bool.eq_false_iff]
        intro hbeq
        exact hne (eq_of_beq hbeq)
      have h2 : (a.1 == k') = false := by rw [ha']; exact h1
      simp [ha, listMapGet_cons, h1, h2, ih]
    · simp [ha, listMapGet_cons, ih]

theorem listMapGet_set_ne {α β : Type} [BEq α] [LawfulBEq α]
    (m : List (α × β)) (k k' : α) (v : β) (hne : ¬ k = k') :
    listMapGet (listMapSet m k v) k' = listMapGet m k' := by
  unfold listMapSet
  by_cases h : m.any (fun p => p.1 == k) = true
  · rw [if_pos h]
    exact listMapGet_map_replace_ne k k' v hne m
  · rw [if_neg h]
    have h1 : (k == k') = false := by
      rw [Bool.eq_false_iff]
      intro hbeq
      exact hne (eq_of_beq hbeq)
    simp [listMapGet, h1]

theorem find?_first {β : Type} (p : β → Bool) :
    ∀ (l₁ : List β) (x : β) (l₂ : List β), (∀ y ∈ l₁, p y = false) → p x = true →
      (l₁ ++ x :: l₂).find? p = some x := by
  intro l₁ x l₂ h1 hx
  induction l₁ with
  | nil => simp [List.find?_cons_of_pos _ hx]
  | cons a t ih =>
    have ha : p a = false := h1 a (List.mem_cons_self a t)
    rw [List.cons_append, List.find?_cons_of_neg _ (by simp [ha])]
    exact ih (fun y hy => h1 y (List.mem_cons_of_mem a hy))

/-! ## The claims -/

/-- C1, counterexample: the generic change-notification path
(`_updateCharacteristicValueOnZwaveNodeValueUpdated`) invokes
`updateValue` even when the filtered result of the delivered event
equals the characteristic's last-known value — here both are
`true` under the `Boolean` filter, and one push still happens,
although the claim requires none. -/
theorem C1_counterexample :
    updateCharacteristicValueOnZwaveNodeValueUpdated "On" jsBooleanFilter
      (.bool true) (.bool true) = [.charPush "On" (.bool true)] ∧
    jsBooleanFilter (.bool true) = .bool true :=
  ⟨rfl, rfl⟩

/-- C1, amended: for every characteristic bound through the generic
change-notification path, delivering a value-changed event invokes the
characteristic's push method exactly once with the new filtered value,
unconditionally — whether or not the filtered result equals the
characteristic's last-known value (the handler never consults it). -/
theorem C1_generic_path_always_pushes_once :
    ∀ (characteristicName : String) (valueFilter : JsVal → JsVal)
      (characteristicValue value : JsVal),
      updateCharacteristicValueOnZwaveNodeValueUpdated characteristicName valueFilter
        characteristicValue value = [.charPush characteristicName (valueFilter value)] :=
  fun _ _ _ _ => rfl

/-- C2: every getter and setter produced by the binding factory, called
while the accessory readiness state is `READY_STATE_UNREADY`, completes
synchronously with the not-ready error and performs no effect at all —
no value-store lookup and no outbound set-value command (the effect
list is empty), leaving store and device network untouched. -/
theorem C2_readiness_gating :
    (∀ (displayName : String) (resolver : Unit → Except String JsVal × List Effect)
        (valueFilter : JsVal → JsVal),
      characteristicGetter READY_STATE_UNREADY displayName resolver valueFilter =
        (.ok (.err (displayName ++ " is not yet ready")), [])) ∧
    (∀ (displayName : String) (zwaveNodeId commandClass valueIndex : Nat)
        (valueFilter : JsVal → JsVal) (value : JsVal),
      characteristicSetter READY_STATE_UNREADY displayName zwaveNodeId commandClass valueIndex
        valueFilter value = (.err (displayName ++ " is not yet ready"), [])) :=
  ⟨fun _ _ _ => rfl, fun _ _ _ _ _ _ => rfl⟩

/-- C4, counterexample: the value-id encoding is not injective over all
distinct tuples — because `valueInstance || 1` treats an explicit
instance 0 as absent, the tuples `(1, 37, 0, 0)` and `(1, 37, 1, 0)`
are distinct yet encode to the same string. -/
theorem C4_counterexample :
    generateNodeValueId 1 37 (some 0) (some 0) = generateNodeValueId 1 37 (some 1) (some 0) ∧
      (0 : Nat) ≠ 1 :=
  ⟨rfl, by decide⟩

/-- C4, amended: `generateNodeValueId` defaults an omitted instance to
1 and an omitted index to 0 (an omitted pair encodes like `(1, 0)`),
and it is injective over distinct `(nodeId, commandClass, instance,
index)` tuples whose instance component is nonzero (determinism is
immediate: the encoding is a pure function of the tuple). -/
theorem C4_encoding_defaults_and_injectivity :
    (∀ n c : Nat, generateNodeValueId n c none none = generateNodeValueId n c (some 1) (some 0)) ∧
    (∀ n₁ c₁ i₁ x₁ n₂ c₂ i₂ x₂ : Nat, i₁ ≠ 0 → i₂ ≠ 0 →
      generateNodeValueId n₁ c₁ (some i₁) (some x₁) =
        generateNodeValueId n₂ c₂ (some i₂) (some x₂) →
      n₁ = n₂ ∧ c₁ = c₂ ∧ i₁ = i₂ ∧ x₁ = x₂) := by
  refine ⟨fun _ _ => rfl, fun n₁ c₁ i₁ x₁ n₂ c₂ i₂ x₂ h₁ h₂ h => ?_⟩
  obtain ⟨hn, hc, hi, hx⟩ := generateNodeValueId_inj h
  refine ⟨hn, hc, ?_, hx⟩
  have e₁ : (i₁ == 0) = false := by simpa using h₁
  have e₂ : (i₂ == 0) = false := by simpa using h₂
  simpa [normInstance, e₁, e₂] using hi

/-- C4, witness: the amended injectivity applied at the concrete
encoding of `(2, 37, 1, 0)`. -/
theorem C4_witness :
    (2 : Nat) = 2 ∧ (37 : Nat) = 37 ∧ (1 : Nat) = 1 ∧ (0 : Nat) = 0 :=
  C4_encoding_defaults_and_injectivity.2 2 37 1 0 2 37 1 0 (by decide) (by decide) rfl

/-- C7: a setter invoked while READY applies its filter and issues
exactly one outbound `setValue` command addressed by the encoded value
id and nothing else (in particular no characteristic push and no store
access — the effect list holds the one command only, and the setter
never touches the store). Concretely, the binary-switch setter on node
2 called with `true` issues `setValue(2, 37, 1, 0, true)` (the split
components of the id). The store still holds `false` afterwards, and
only when the value-changed event for that exact id arrives does the
store mutate and the bound change-notification handler push once. -/
theorem C7_setter_issues_single_command :
    (∀ (displayName : String) (zwaveNodeId commandClass valueIndex : Nat)
        (valueFilter : JsVal → JsVal) (value : JsVal),
      characteristicSetter READY_STATE_READY displayName zwaveNodeId commandClass valueIndex
          valueFilter value =
        (.ok, [.setValue (updateNodeValueById
          (generateNodeValueId zwaveNodeId commandClass none (some valueIndex))
          (valueFilter value))])) ∧
    characteristicSetter READY_STATE_READY "Outlet" 2 37 0 jsBooleanFilter (.bool true) =
      (.ok, [.setValue ⟨some "2", some "37", some "1", some "0", .bool true⟩]) ∧
    findNodeValue outletStore 2 ⟨some 37, none, some 0⟩ = .ok (some outletValue) ∧
    ozwNodeValueChanged outletStore 2 ⟨"2-37-1-0", .bool true⟩ =
      .ok (⟨[(2, ⟨2, [("2-37-1-0", { outletValue with value := .bool true })]⟩)], true⟩,
        .bool false, [("2-37-1-0", .bool true)]) ∧
    updateCharacteristicValueOnZwaveNodeValueUpdated "On" jsBooleanFilter (.bool false)
      (.bool true) = [.charPush "On" (.bool true)] :=
  ⟨fun _ _ _ _ _ _ => rfl, by decide, by decide, by decide, rfl⟩

/-- C8, counterexample: `_ozwNodeAdded` on an id already present in
the store silently replaces the existing record (here node 1, which
held one value) with a fresh empty one; the operation has no error
channel at all, so no error condition is reported to the caller. -/
theorem C8_counterexample :
    ozwNodeAdded nodeOneStore 1 = ⟨[(1, ⟨1, []⟩)], false⟩ ∧
    listMapGet nodeOneStore.nodes 1 = some ⟨1, [("a", switchValueA)]⟩ :=
  ⟨rfl, rfl⟩

/-- C8, amended: `addNode(nodeId)` stores an empty node record with no
values under `nodeId` — silently replacing any record already present —
leaves every other node unchanged, and reports nothing to the caller. -/
theorem C8_addNode_replaces_silently :
    ∀ (st : ZWaveState) (nodeId : Nat),
      listMapGet (ozwNodeAdded st nodeId).nodes nodeId = some ⟨nodeId, []⟩ ∧
      (∀ m : Nat, m ≠ nodeId →
        listMapGet (ozwNodeAdded st nodeId).nodes m = listMapGet st.nodes m) ∧
      (ozwNodeAdded st nodeId).ready = st.ready := by
  intro st nodeId
  refine ⟨listMapGet_set_self _ _ _, fun m hm => ?_, rfl⟩
  exact listMapGet_set_ne _ _ _ _ (fun h => hm h.symm)

/-- C8, witness: adding fresh node 2 to the concrete store creates an
empty record and leaves node 1 untouched. -/
theorem C8_witness :
    listMapGet (ozwNodeAdded nodeOneStore 2).nodes 2 = some ⟨2, []⟩ ∧
    listMapGet (ozwNodeAdded nodeOneStore 2).nodes 1 = listMapGet nodeOneStore.nodes 1 ∧
    (ozwNodeAdded nodeOneStore 2).ready = nodeOneStore.ready :=
  ⟨(C8_addNode_replaces_silently nodeOneStore 2).1,
    (C8_addNode_replaces_silently nodeOneStore 2).2.1 1 (by decide),
    (C8_addNode_replaces_silently nodeOneStore 2).2.2⟩

/-- C10: `findNodeValue` is not total over its node argument — for a
node id with no record in the store it throws (modelled as
`Except.error`, the `TypeError` from dereferencing `node.values` of
`undefined`); only when the node exists does unmatched criteria yield
the `undefined` (not-found) result `.ok none`. -/
theorem C10_findNodeValue_not_total :
    (∀ (st : ZWaveState) (nodeId : Nat) (c : Criteria),
      listMapGet st.nodes nodeId = none →
      ∃ e, findNodeValue st nodeId c = .error e) ∧
    (∀ (st : ZWaveState) (nodeId : Nat) (c : Criteria) (node : Node),
      listMapGet st.nodes nodeId = some node →
      (∀ u ∈ node.values.map Prod.snd, matchesCriteria u (defaultCriteria c) = false) →
      findNodeValue st nodeId c = .ok none) := by
  constructor
  · intro st nodeId c h
    refine ⟨"TypeError: Cannot read property of undefined", ?_⟩
    simp [findNodeValue, h]
  · intro st nodeId c node h hall
    have hfind : (node.values.map Prod.snd).find?
        (fun v => matchesCriteria v (defaultCriteria c)) = none := by
      rw [List.find?_eq_none]
      intro u hu
      simp [hall u hu]
    simp [findNodeValue, h, hfind]

/-- C10, witness: looking up node 7 in the empty store throws, and a
criteria matching nothing on the node-2 store yields `.ok none`. -/
theorem C10_witness :
    (∃ e, findNodeValue ⟨[], false⟩ 7 ⟨none, none, none⟩ = .error e) ∧
    findNodeValue outletStore 2 ⟨some 999, none, none⟩ = .ok none :=
  ⟨C10_findNodeValue_not_total.1 ⟨[], false⟩ 7 ⟨none, none, none⟩ rfl,
    C10_findNodeValue_not_total.2 outletStore 2 ⟨some 999, none, none⟩
      ⟨2, [("2-37-1-0", outletValue)]⟩ rfl (by decide)⟩

/-- C5, counterexample: on a store where two distinct values of node 1
match the criteria (class 37, index 0), `findNodeValue` silently
returns the first match instead of surfacing the ambiguity as an
error. -/
theorem C5_counterexample :
    findNodeValue ambiguousStore 1 ⟨some 37, none, some 0⟩ = .ok (some switchValueA) ∧
    matchesCriteria switchValueB (defaultCriteria ⟨some 37, none, some 0⟩) = true ∧
    listMapGet ambiguousStore.nodes 1 = some ⟨1, [("a", switchValueA), ("b", switchValueB)]⟩ ∧
    switchValueA ≠ switchValueB := by
  decide

/-- C5, amended: `findNodeValue(nodeId, criteria)` treats an omitted
instance as 1; on an existing node it returns the first value (in
insertion order) matching the criteria — silently resolving ambiguous
criteria to the first match, with no error — and yields the not-found
result (`undefined`) when nothing matches. -/
theorem C5_findNodeValue_first_match :
    (∀ (st : ZWaveState) (nodeId : Nat) (cls ix : Option Nat),
      findNodeValue st nodeId ⟨cls, none, ix⟩ = findNodeValue st nodeId ⟨cls, some 1, ix⟩) ∧
    (∀ (st : ZWaveState) (nodeId : Nat) (c : Criteria) (node : Node)
        (l₁ l₂ : List NodeValue) (v : NodeValue),
      listMapGet st.nodes nodeId = some node →
      node.values.map Prod.snd = l₁ ++ v :: l₂ →
      (∀ u ∈ l₁, matchesCriteria u (defaultCriteria c) = false) →
      matchesCriteria v (defaultCriteria c) = true →
      findNodeValue st nodeId c = .ok (some v)) ∧
    (∀ (st : ZWaveState) (nodeId : Nat) (c : Criteria) (node : Node),
      listMapGet st.nodes nodeId = some node →
      (∀ u ∈ node.values.map Prod.snd, matchesCriteria u (defaultCriteria c) = false) →
      findNodeValue st nodeId c = .ok none) := by
  refine ⟨fun _ _ _ _ => rfl, ?_, ?_⟩
  · intro st nodeId c node l₁ l₂ v hnode hdec hl hv
    have hfind := find?_first (fun u => matchesCriteria u (defaultCriteria c)) l₁ v l₂ hl hv
    simp [findNodeValue, hnode, hdec, hfind]
  · intro st nodeId c node h hall
    have hfind : (node.values.map Prod.snd).find?
        (fun v => matchesCriteria v (defaultCriteria c)) = none := by
      rw [List.find?_eq_none]
      intro u hu
      simp [hall u hu]
    simp [findNodeValue, h, hfind]

/-- C5, witness: the first-match behaviour applied on the ambiguous
store — the earlier of the two matching values is returned. -/
theorem C5_witness :
    findNodeValue ambiguousStore 1 ⟨some 37, none, some 0⟩ = .ok (some switchValueA) :=
  C5_findNodeValue_first_match.2.1 ambiguousStore 1 ⟨some 37, none, some 0⟩
    ⟨1, [("a", switchValueA), ("b", switchValueB)]⟩ [] [switchValueB] switchValueA
    rfl rfl (by simp) (by decide)

/-- C9: `_ozwScanComplete` sets the ready flag (and touches nothing
else); a value-changed delivery for a known value always mutates the
stored value in place, and emits exactly one `node.value.updated` event
carrying the new value when the ready flag is set — and none at all
before scan complete. So value-change listeners are never invoked for
updates that arrive during the initial scan. -/
theorem C9_scan_complete_gates_events :
    (∀ st : ZWaveState,
      (ozwScanComplete st).ready = true ∧ (ozwScanComplete st).nodes = st.nodes) ∧
    (∀ (st : ZWaveState) (nodeId : Nat) (inc : IncomingValue) (node : Node) (ex : NodeValue),
      listMapGet st.nodes nodeId = some node →
      listMapGet node.values inc.value_id = some ex →
      ∃ st' : ZWaveState,
        ozwNodeValueChanged st nodeId inc =
          .ok (st', ex.value, if st.ready then [(ex.value_id, inc.value)] else []) ∧
        getStoredValue st' nodeId inc.value_id = some inc.value ∧
        st'.ready = st.ready) := by
  refine ⟨fun st => ⟨rfl, rfl⟩, ?_⟩
  intro st nodeId inc node ex hnode hval
  refine ⟨⟨listMapSet st.nodes nodeId
    ⟨node.id, listMapSet node.values inc.value_id { ex with value := inc.value }⟩, st.ready⟩,
    ?_, ?_, rfl⟩
  · simp [ozwNodeValueChanged, hnode, hval]
  · simp [getStoredValue, listMapGet_set_self]

/-- C9, witness: the same value-changed delivery on the node-2 store,
once before scan complete (no event emitted) and once after (exactly
one event emitted). -/
theorem C9_witness :
    (∃ st' : ZWaveState,
      ozwNodeValueChanged unreadyOutletStore 2 ⟨"2-37-1-0", .bool true⟩ =
        .ok (st', outletValue.value,
          if unreadyOutletStore.ready then [(outletValue.value_id, JsVal.bool true)] else []) ∧
      getStoredValue st' 2 "2-37-1-0" = some (.bool true) ∧
      st'.ready = unreadyOutletStore.ready) ∧
    (∃ st' : ZWaveState,
      ozwNodeValueChanged outletStore 2 ⟨"2-37-1-0", .bool true⟩ =
        .ok (st', outletValue.value,
          if outletStore.ready then [(outletValue.value_id, JsVal.bool true)] else []) ∧
      getStoredValue st' 2 "2-37-1-0" = some (.bool true) ∧
      st'.ready = outletStore.ready) :=
  ⟨C9_scan_complete_gates_events.2 unreadyOutletStore 2 ⟨"2-37-1-0", .bool true⟩
      ⟨2, [("2-37-1-0", outletValue)]⟩ outletValue rfl rfl,
    C9_scan_complete_gates_events.2 outletStore 2 ⟨"2-37-1-0", .bool true⟩
      ⟨2, [("2-37-1-0", outletValue)]⟩ outletValue rfl rfl⟩

theorem map_replace_id_of_keys_ne {α β : Type} [BEq α] (k : α) (x : α × β) :
    ∀ l : List (α × β), (∀ p ∈ l, (p.1 == k) = false) →
      l.map (fun p => if p.1 == k then x else p) = l := by
  intro l
  induction l with
  | nil => intro _; rfl
  | cons a t ih =>
    intro h
    have ha : (a.1 == k) = false := h a (List.mem_cons_self a t)
    simp only [List.map_cons]
    rw [if_neg (by simp [ha]), ih (fun p hp => h p (List.mem_cons_of_mem a hp))]

/-- C6, counterexample: a value-changed delivery on the node-2 store
computes the previous value (`false`, second component of the result,
used only in the log line), but the event payload — and therefore the
argument of every listener invocation — carries only the new value:
`false` is not supplied to the listeners. -/
theorem C6_counterexample :
    ozwNodeValueChanged outletStore 2 ⟨"2-37-1-0", .bool true⟩ =
      .ok (⟨[(2, ⟨2, [("2-37-1-0", { outletValue with value := .bool true })]⟩)], true⟩,
        .bool false, [("2-37-1-0", .bool true)]) ∧
    deliveredValues "2-37-1-0" [("2-37-1-0", .bool true)] = [.bool true] ∧
    JsVal.bool false ∉ deliveredValues "2-37-1-0" [("2-37-1-0", .bool true)] := by
  decide

/-- C6, amended: after a value-changed delivery for a stored value,
a `findNodeValue` with that value's exact criteria — and the lookup by
its id — returns the latest raw value; the previously stored value is
retained (it is the second component of the result, used in the log
line), but the listeners are supplied only the new value. The
hypotheses state the JS `Map` invariants: the value is stored under its
own id, keys left of it differ, and it is the first match for its own
criteria. -/
theorem C6_update_then_find_latest :
    ∀ (st : ZWaveState) (nodeId : Nat) (inc : IncomingValue) (node : Node)
      (l₁ l₂ : List (String × NodeValue)) (ex : NodeValue),
      listMapGet st.nodes nodeId = some node →
      node.values = l₁ ++ (inc.value_id, ex) :: l₂ →
      (∀ p ∈ l₁, (p.1 == inc.value_id) = false) →
      (∀ p ∈ l₁, matchesCriteria p.2 ⟨some ex.class_id, some ex.inst, some ex.index⟩ = false) →
      ex.value_id = inc.value_id →
      ∃ st' : ZWaveState,
        ozwNodeValueChanged st nodeId inc =
          .ok (st', ex.value, if st.ready then [(ex.value_id, inc.value)] else []) ∧
        findNodeValue st' nodeId ⟨some ex.class_id, some ex.inst, some ex.index⟩ =
          .ok (some { ex with value := inc.value }) ∧
        getStoredValue st' nodeId inc.value_id = some inc.value ∧
        deliveredValues inc.value_id (if st.ready then [(ex.value_id, inc.value)] else []) =
          (if st.ready then [inc.value] else []) := by
  intro st nodeId inc node l₁ l₂ ex hnode hdec hkeys hmatch hid
  have hself : ((inc.value_id, ex).1 == inc.value_id) = true := by simp
  have hgetfind : node.values.find? (fun p => p.1 == inc.value_id) =
      some (inc.value_id, ex) := by
    rw [hdec]
    exact find?_first _ l₁ _ l₂ hkeys hself
  have hget : listMapGet node.values inc.value_id = some ex := by
    simp [listMapGet, hgetfind]
  have hany : node.values.any (fun p => p.1 == inc.value_id) = true := by
    rw [hdec]
    refine List.any_eq_true.mpr ⟨(inc.value_id, ex), ?_, hself⟩
    simp
  have hset : listMapSet node.values inc.value_id { ex with value := inc.value } =
      l₁ ++ (inc.value_id, { ex with value := inc.value }) ::
        l₂.map (fun p => if p.1 == inc.value_id then
          (inc.value_id, { ex with value := inc.value }) else p) := by
    rw [listMapSet, if_pos hany, hdec, List.map_append, List.map_cons,
      map_replace_id_of_keys_ne _ _ l₁ hkeys]
    simp
  refine ⟨⟨listMapSet st.nodes nodeId
    ⟨node.id, listMapSet node.values inc.value_id { ex with value := inc.value }⟩, st.ready⟩,
    ?_, ?_, ?_, ?_⟩
  · simp [ozwNodeValueChanged, hnode, hget]
  · have hd : defaultCriteria ⟨some ex.class_id, some ex.inst, some ex.index⟩ =
        ⟨some ex.class_id, some ex.inst, some ex.index⟩ := rfl
    have hfind := find?_first
      (fun v => matchesCriteria v (⟨some ex.class_id, some ex.inst, some ex.index⟩ : Criteria))
      (l₁.map Prod.snd) { ex with value := inc.value }
      ((l₂.map (fun p => if p.1 == inc.value_id then
        (inc.value_id, { ex with value := inc.value }) else p)).map Prod.snd)
      (by
        intro u hu
        rcases List.mem_map.mp hu with ⟨p, hp, rfl⟩
        exact hmatch p hp)
      (by simp [matchesCriteria])
    simp only [findNodeValue, listMapGet_set_self, hd, hset, List.map_append, List.map_cons]
    rw [hfind]
  · simp [getStoredValue, listMapGet_set_self]
  · by_cases hr : st.ready = true
    · simp [deliveredValues, hr, hid]
    · simp only [Bool.not_eq_true] at hr
      simp [deliveredValues, hr]

/-- C6, witness: the amended statement applied on the node-2 store:
the updated value is found with its exact criteria, the previous value
`false` is retained in the result, and the listener receives `true`. -/
theorem C6_witness :
    ∃ st' : ZWaveState,
      ozwNodeValueChanged outletStore 2 ⟨"2-37-1-0", .bool true⟩ =
        .ok (st', outletValue.value,
          if outletStore.ready then [(outletValue.value_id, JsVal.bool true)] else []) ∧
      findNodeValue st' 2
          ⟨some outletValue.class_id, some outletValue.inst, some outletValue.index⟩ =
        .ok (some { outletValue with value := .bool true }) ∧
      getStoredValue st' 2 "2-37-1-0" = some (.bool true) ∧
      deliveredValues "2-37-1-0"
          (if outletStore.ready then [(outletValue.value_id, JsVal.bool true)] else []) =
        (if outletStore.ready then [JsVal.bool true] else []) :=
  C6_update_then_find_latest outletStore 2 ⟨"2-37-1-0", .bool true⟩
    ⟨2, [("2-37-1-0", outletValue)]⟩ [] [] outletValue rfl rfl (by simp) (by simp) rfl

/-- C3, counterexample: in the scenario — battery level 30, threshold
20, power mode just changed from "Battery power" to "Plugged in" — the
claim requires the derived low-battery boolean to be recomputed (to
false, as `derivedLowBattery` confirms) and pushed exactly once; but
delivering the power-mode change event to the battery service performs
no recomputation (no store lookups) and pushes only the "Charging
State" characteristic — "Status Low Battery" is never pushed, because
nothing recomputes the derived value when the power mode changes. -/
theorem C3_counterexample :
    batteryServiceOnNodeValueUpdated batteryStore 5 (.num 0) (.num 1)
        "5-112-1-9" (.str "Plugged in") =
      .ok [.charPush "Charging State" (.num 1)] ∧
    derivedLowBattery (.num 30) (.str "Plugged in") (.num 20) = .num 0 ∧
    (JsVal.num 1 : JsVal) ≠ .num 0 := by
  decide

/-- C3, amended: of the three contributing values, only a change to the
battery level triggers a recomputation of the derived low-battery
boolean — it recomputes exactly once (one pair of store lookups),
pushes "Battery Level" unconditionally, and pushes "Status Low Battery"
at most once, only when the recomputed value differs from the
characteristic's last-known value. A change to the power mode triggers
no recomputation and pushes only the "Charging State" characteristic,
exactly once. A change to the low-battery threshold (class 112, index
39) triggers nothing at all: nothing is subscribed at that value id,
so delivering its event produces no lookup and no push. -/
theorem C3_low_battery_recomputation :
    (∀ (st : ZWaveState) (zwaveNodeId : Nat)
        (chargingStateValue statusLowBatteryValue value : JsVal)
        (currentPowerMode minBatteryLevel : NodeValue),
      findNodeValue st zwaveNodeId ⟨some 112, none, some 9⟩ = .ok (some currentPowerMode) →
      findNodeValue st zwaveNodeId ⟨some 112, none, some 39⟩ = .ok (some minBatteryLevel) →
      batteryServiceOnNodeValueUpdated st zwaveNodeId chargingStateValue statusLowBatteryValue
          (generateNodeValueId zwaveNodeId 128 none (some 0)) value =
        .ok ([.charPush "Battery Level" (jsNumber value),
              .storeLookup zwaveNodeId ⟨some 112, none, some 9⟩,
              .storeLookup zwaveNodeId ⟨some 112, none, some 39⟩] ++
             (if statusLowBatteryValue ≠
                  derivedLowBattery (jsNumber value) currentPowerMode.value minBatteryLevel.value
              then [.charPush "Status Low Battery"
                  (derivedLowBattery (jsNumber value) currentPowerMode.value
                    minBatteryLevel.value)]
              else []))) ∧
    (∀ (st : ZWaveState) (zwaveNodeId : Nat)
        (chargingStateValue statusLowBatteryValue value : JsVal),
      batteryServiceOnNodeValueUpdated st zwaveNodeId chargingStateValue statusLowBatteryValue
          (bindChangeNotificationId zwaveNodeId 112 9) value =
        .ok [.charPush "Charging State" (chargingStateCharacteristicValueFilter value)]) ∧
    (∀ (st : ZWaveState) (zwaveNodeId : Nat)
        (chargingStateValue statusLowBatteryValue value : JsVal),
      batteryServiceOnNodeValueUpdated st zwaveNodeId chargingStateValue statusLowBatteryValue
          (generateNodeValueId zwaveNodeId 112 none (some 39)) value = .ok []) := by
  refine ⟨?_, ?_, ?_⟩
  · intro st zwaveNodeId csv slbv value pm mb hpm hmb
    have hne : (generateNodeValueId zwaveNodeId 128 none (some 0) ==
        bindChangeNotificationId zwaveNodeId 112 9) = false :=
      generateNodeValueId_ne_of_commandClass (by decide)
    simp [batteryServiceOnNodeValueUpdated, batteryLevelChangedHandler, hne, hpm, hmb]
  · intro st zwaveNodeId csv slbv value
    have hne : (bindChangeNotificationId zwaveNodeId 112 9 ==
        generateNodeValueId zwaveNodeId 128 none (some 0)) = false :=
      generateNodeValueId_ne_of_commandClass (by decide)
    simp [batteryServiceOnNodeValueUpdated, hne,
      updateCharacteristicValueOnZwaveNodeValueUpdated]
  · intro st zwaveNodeId csv slbv value
    have hne1 : (generateNodeValueId zwaveNodeId 112 none (some 39) ==
        generateNodeValueId zwaveNodeId 128 none (some 0)) = false :=
      generateNodeValueId_ne_of_commandClass (by decide)
    have hne2 : (generateNodeValueId zwaveNodeId 112 none (some 39) ==
        bindChangeNotificationId zwaveNodeId 112 9) = false :=
      generateNodeValueId_ne_of_index (by decide)
    simp [batteryServiceOnNodeValueUpdated, hne1, hne2]

/-- C3, witness: a battery-level change to 30 on the scenario store
(power mode "Plugged in", threshold 20) recomputes once — the two
store lookups — pushes "Battery Level", and does not push "Status Low
Battery" because the recomputed value 0 equals the last-known value. -/
theorem C3_witness :
    batteryServiceOnNodeValueUpdated batteryStore 5 (.num 0) (.num 0)
        (generateNodeValueId 5 128 none (some 0)) (.num 30) =
      .ok [.charPush "Battery Level" (.num 30),
        .storeLookup 5 ⟨some 112, none, some 9⟩,
        .storeLookup 5 ⟨some 112, none, some 39⟩] := by
  have h := C3_low_battery_recomputation.1 batteryStore 5 (.num 0) (.num 0) (.num 30)
    powerModeValue lowBatteryThresholdValue (by decide) (by decide)
  rw [h]
  decide

end HomebridgeZwave
